import Mathlib

/-!
# LOST60 Zephyr test firmware: `src/main.c`

A shallow embedding of the Bluetooth bring-up code and of its event
callbacks, followed by the properties established about them.

The program keeps no mutable state of its own: every function of `main.c`
only calls into the Bluetooth stack, the GATT services, the settings
subsystem and the console.  A function is therefore embedded as the list of
external calls it performs, in program order, as a function of its arguments
and of the results the external calls hand back (`Env`).
-/

namespace Lost60

/-! ## Advertising data -/

/-- One element of an advertising table (`struct bt_data`): the type tag, the
number of data bytes and the data bytes. -/
structure bt_data where
  type : Nat
  data_len : Nat
  data : List Nat
deriving DecidableEq, Repr

/-- Constants that `main.c` takes from the stack headers (`bluetooth.h`,
`hci.h`), which are not part of the sources: the two advertising type tags
and the two flag bits used by the `ad` table. -/
structure BtHeader where
  BT_DATA_FLAGS : Nat
  BT_DATA_UUID16_ALL : Nat
  BT_LE_AD_GENERAL : Nat
  BT_LE_AD_NO_BREDR : Nat
deriving DecidableEq, Repr

/-- The values the Bluetooth assigned numbers give to the header constants:
flags tag `0x01`, complete 16-bit UUID list tag `0x03`, general-discoverable
bit `0x02`, no-BR/EDR bit `0x04`. -/
def assignedNumbers : BtHeader := ⟨0x01, 0x03, 0x02, 0x04⟩

/-- The header macro `BT_DATA_BYTES(type, bytes...)`: an element whose data is
the given byte array (`u8_t []`) and whose `data_len` is its `sizeof`. -/
def BT_DATA_BYTES (type : Nat) (bytes : List Nat) : bt_data :=
  ⟨type % 256, bytes.length % 256, bytes.map (· % 256)⟩

/-- The table `ad` of `main.c` (lines 16-20). -/
def ad (h : BtHeader) : List bt_data :=
  [ BT_DATA_BYTES h.BT_DATA_FLAGS [h.BT_LE_AD_GENERAL ||| h.BT_LE_AD_NO_BREDR],
    BT_DATA_BYTES h.BT_DATA_UUID16_ALL [0x12, 0x18,   -- HID Service
                                        0x0F, 0x18] ] -- Battery Service

/-- The header macro `ARRAY_SIZE`: the number of elements of a table. -/
def ARRAY_SIZE {α : Type} (xs : List α) : Nat := xs.length

/-- Modelled from the spec: the transmitted form of one table element, which
the stack (not part of the sources) produces: a length byte counting the type
byte and the data, the type byte, then the data bytes. -/
def adRecord (d : bt_data) : List Nat :=
  ((d.data_len + 1) % 256) :: d.type :: d.data.take d.data_len

/-- Modelled from the spec: the advertising payload of a table, its elements
as length/type/data records in table order. -/
def adPayload (table : List bt_data) : List Nat :=
  table.flatMap adRecord

/-- A 16-bit identifier as two bytes, least significant first. -/
def le16 (u : Nat) : List Nat := [u % 256, (u / 256) % 256]

/-! ## External calls -/

/-- An argument of a console call. -/
inductive Arg where
  | str (s : String)
  | uint (n : Nat)
  | int (i : Int)
deriving DecidableEq, Repr

/-- Modelled from the spec: the security levels of a connection, the ordinal
None, Low, Medium, High (the header declaring `bt_security_t` is not part of
the sources). -/
inductive bt_security_t where
  | BT_SECURITY_NONE
  | BT_SECURITY_LOW
  | BT_SECURITY_MEDIUM
  | BT_SECURITY_HIGH
deriving DecidableEq, Repr

/-- The ordinal of a security level, the number `%u` prints for it. -/
def bt_security_t.ord : bt_security_t → Nat
  | .BT_SECURITY_NONE => 0
  | .BT_SECURITY_LOW => 1
  | .BT_SECURITY_MEDIUM => 2
  | .BT_SECURITY_HIGH => 3

/-- A connection object of the stack (`struct bt_conn *`): which connection it
is, and the peer address it gives through `bt_conn_get_dst`, in the text form
`bt_addr_le_to_str` writes. -/
structure bt_conn where
  index : Nat
  dst : String
deriving DecidableEq, Repr

/-- The text `bt_addr_le_to_str(bt_conn_get_dst(conn), addr, sizeof(addr))`
leaves in the local buffer `addr`. -/
def bt_addr_le_to_str (conn : bt_conn) : String := conn.dst

/-- The static functions of `main.c` that are handed to the stack. -/
inductive Callback where
  | connected
  | disconnected
  | security_changed
  | bt_ready
  | auth_passkey_display
  | auth_cancel
  | pairing_complete
deriving DecidableEq, Repr

/-- The connection callback table type `struct bt_conn_cb`, with the fields
`main.c` sets. -/
structure bt_conn_cb where
  connected : Option Callback
  disconnected : Option Callback
  security_changed : Option Callback
deriving DecidableEq, Repr

/-- The authentication callback table type `struct bt_conn_auth_cb`, with the
fields `main.c` sets. -/
structure bt_conn_auth_cb where
  passkey_display : Option Callback
  passkey_entry : Option Callback
  cancel : Option Callback
  pairing_complete : Option Callback
deriving DecidableEq, Repr

/-- The advertising parameter sets `main.c` names. -/
inductive AdvParam where
  | BT_LE_ADV_CONN_NAME
deriving DecidableEq, Repr

/-- An external call made by the program, with its arguments. -/
inductive Call where
  | printk (fmt : String) (args : List Arg)
  | printf (fmt : String) (args : List Arg)
  | hog_init
  | bas_init
  | settings_load
  | bt_le_adv_start (param : AdvParam) (ad : List bt_data) (ad_len : Nat)
      (sd : Option (List bt_data)) (sd_len : Nat)
  | bt_conn_security (conn : bt_conn) (sec : bt_security_t)
  | bt_enable (cb : Callback)
  | bt_conn_cb_register (cb : bt_conn_cb)
  | bt_conn_auth_cb_register (cb : bt_conn_auth_cb)
deriving DecidableEq, Repr

/-- What the surroundings answer to the program: the build configuration, the
return values of the calls whose result the program reads, and the outcome of
the calls whose result it does not take (`hog_init();` and `bas_init();` are
plain statements, and the value of `settings_load()` is dropped). -/
structure Env where
  CONFIG_SETTINGS : Bool
  hog_init_failed : Bool
  bas_init_failed : Bool
  settings_load : Int
  bt_le_adv_start : Int
  bt_conn_security : Int
  bt_enable : Int
deriving DecidableEq, Repr

/-! ## The functions of `main.c` -/

/-- The function `connected` (lines 28-44). -/
def connected (env : Env) (conn : bt_conn) (err : Nat) : List Call :=
  let addr := bt_addr_le_to_str conn
  if err ≠ 0 then
    [.printk "Failed to connect to %s (%u)\n" [.str addr, .uint err]]
  else
    .printk "Connected %s\n" [.str addr] ::
    .bt_conn_security conn .BT_SECURITY_MEDIUM ::
    (if env.bt_conn_security ≠ 0 then [.printk "Failed to set security\n" []] else [])

/-- The function `disconnected` (lines 52-59). -/
def disconnected (conn : bt_conn) (reason : Nat) : List Call :=
  let addr := bt_addr_le_to_str conn
  [.printk "Disconnected from %s (reason %u)\n" [.str addr, .uint reason]]

/-- The function `security_changed` (lines 68-75). -/
def security_changed (conn : bt_conn) (level : bt_security_t) : List Call :=
  let addr := bt_addr_le_to_str conn
  [.printk "Security changed: %s level %u\n" [.str addr, .uint level.ord]]

/-- The table `conn_callbacks` (lines 82-86). -/
def conn_callbacks : bt_conn_cb :=
  ⟨some .connected, some .disconnected, some .security_changed⟩

/-- The function `bt_ready` (lines 94-123). -/
def bt_ready (h : BtHeader) (env : Env) (err : Int) : List Call :=
  if err ≠ 0 then
    [.printk "Bluetooth init failed (err %d)\n" [.int err]]
  else
    [.printk "Bluetooth initialized\n" [], .hog_init, .bas_init]
    ++ (if env.CONFIG_SETTINGS then [.settings_load] else [])
    ++ [.bt_le_adv_start .BT_LE_ADV_CONN_NAME (ad h) (ARRAY_SIZE (ad h)) none 0]
    ++ (if env.bt_le_adv_start ≠ 0 then
          [.printk "Advertising failed to start (err %d)\n" [.int env.bt_le_adv_start]]
        else
          [.printk "Advertising successfully started\n" []])

/-- The function `auth_passkey_display` (lines 131-138). -/
def auth_passkey_display (conn : bt_conn) (passkey : Nat) : List Call :=
  let addr := bt_addr_le_to_str conn
  [.printk "Passkey for %s: %06u\n" [.str addr, .uint passkey]]

/-- The function `auth_cancel` (lines 145-152). -/
def auth_cancel (conn : bt_conn) : List Call :=
  let addr := bt_addr_le_to_str conn
  [.printk "Pairing cancelled: %s\n" [.str addr]]

/-- The function `pairing_complete` (lines 160-163); neither argument is used. -/
def pairing_complete (_conn : bt_conn) (_bonded : Bool) : List Call :=
  [.printf "Pairing is complete\n" []]

/-- The table `auth_cb_display` (lines 169-174). -/
def auth_cb_display : bt_conn_auth_cb :=
  ⟨some .auth_passkey_display, none, some .auth_cancel, some .pairing_complete⟩

/-- The function `main` (lines 176-192). -/
def main (env : Env) : List Call :=
  .bt_enable .bt_ready ::
  (if env.bt_enable ≠ 0 then
     [.printk "Bluetooth init failed (err %d)\n" [.int env.bt_enable]]
   else
     [.bt_conn_cb_register conn_callbacks, .bt_conn_auth_cb_register auth_cb_display])

/-! ## Events and traces -/

/-- An event the stack delivers through the two callback tables. -/
inductive Event where
  | connect (conn : bt_conn) (err : Nat)
  | disconnect (conn : bt_conn) (reason : Nat)
  | security_changed (conn : bt_conn) (level : bt_security_t)
  | passkey_display (conn : bt_conn) (passkey : Nat)
  | cancel (conn : bt_conn)
  | pairing_complete (conn : bt_conn) (bonded : Bool)
deriving DecidableEq, Repr

/-- The function the tables `conn_callbacks` and `auth_cb_display` name for an
event, applied to the event. -/
def handle (env : Env) : Event → List Call
  | .connect conn err => connected env conn err
  | .disconnect conn reason => disconnected conn reason
  | .security_changed conn level => security_changed conn level
  | .passkey_display conn passkey => auth_passkey_display conn passkey
  | .cancel conn => auth_cancel conn
  | .pairing_complete conn bonded => pairing_complete conn bonded

/-- The calls the program makes over a sequence of events, each event paired
with the answers the surroundings give while it is handled. -/
def run (evs : List (Env × Event)) : List Call :=
  evs.flatMap (fun p => handle p.1 p.2)

/-- Console output (`printk`, `printf`), as opposed to a request to the stack,
the services or the settings subsystem. -/
def Call.isLog : Call → Bool
  | .printk _ _ => true
  | .printf _ _ => true
  | _ => false

/-- The requests a trace holds: every call that is not console output. -/
def commands (t : List Call) : List Call := t.filter (fun c => !c.isLog)

/-- The console output a trace holds. -/
def logs (t : List Call) : List Call := t.filter Call.isLog

/-- An advertising-start request. -/
def Call.isAdvStart : Call → Bool
  | .bt_le_adv_start _ _ _ _ _ => true
  | _ => false

/-- A security-upgrade request. -/
def Call.isSecurityRequest : Call → Bool
  | .bt_conn_security _ _ => true
  | _ => false

/-- A registration of an application service. -/
def Call.isServiceInit : Call → Bool
  | .hog_init => true
  | .bas_init => true
  | _ => false

/-- A registration of a callback table. -/
def Call.isCallbackRegister : Call → Bool
  | .bt_conn_cb_register _ => true
  | .bt_conn_auth_cb_register _ => true
  | _ => false

/-! ## Console text

The text a console call writes, for the conversions `main.c` uses: `%s`, `%u`
and `%d`, each with an optional `0` flag and minimum field width as in
`%06u`. -/

/-- Left padding of a converted value to a minimum field width. -/
def padLeft (c : Char) (width : Nat) (s : List Char) : List Char :=
  List.replicate (width - s.length) c ++ s

/-- The conversion `%u` with its flag and width: the decimal digits of the
value, most significant first, padded on the left to the field width with
zeros under the `0` flag and with blanks otherwise; never truncated. -/
def fmt_u (zero : Bool) (width : Nat) (n : Nat) : List Char :=
  padLeft (if zero then '0' else ' ') width (Nat.toDigits 10 n)

/-- The conversion `%d`: a minus sign for a negative value, then as `%u`. -/
def fmt_d (zero : Bool) (width : Nat) (i : Int) : List Char :=
  if i < 0 then
    (if zero then '-' :: fmt_u true (width - 1) i.natAbs
     else padLeft ' ' width ('-' :: Nat.toDigits 10 i.natAbs))
  else fmt_u zero width i.natAbs

/-- One conversion: the text it writes and the arguments left over, or `none`
when the conversion character and the next argument do not go together. -/
def conv (zero : Bool) (width : Nat) : Char → List Arg → Option (List Char × List Arg)
  | 's', .str s :: rest => some (padLeft ' ' width s.toList, rest)
  | 'u', .uint n :: rest => some (fmt_u zero width n, rest)
  | 'd', .int i :: rest => some (fmt_d zero width i, rest)
  | _, _ => none

/-- The text of a format string applied to its arguments.  The first argument
is `none` while copying plain text and holds the flag and width read so far
while inside a conversion that began with `%`. -/
def render : Option (Bool × Nat) → List Char → List Arg → List Char
  | none, [], _ => []
  | none, c :: cs, args =>
      if c = '%' then render (some (false, 0)) cs args else c :: render none cs args
  | some _, [], _ => []
  | some (z, w), c :: cs, args =>
      if c = '0' ∧ w = 0 ∧ z = false then render (some (true, 0)) cs args
      else if c.isDigit then render (some (z, 10 * w + (c.toNat - 48))) cs args
      else match conv z w c args with
        | some (out, rest) => out ++ render none cs rest
        | none => render none cs args

/-- The text a call writes to the console; nothing for a call that is not
console output. -/
def Call.text : Call → List Char
  | .printk fmt args => render none fmt.toList args
  | .printf fmt args => render none fmt.toList args
  | _ => []

/-- A length/type/data decoder as the specification words it: read a length
byte, a type byte, then length-1 data bytes, repeated until the bytes are used
up.  The result is `none` when a length byte is zero or the bytes end inside a
record, so `some` means the whole payload was consumed.  The first argument
bounds the number of records. -/
def decodeRecords : Nat → List Nat → Option (List (Nat × List Nat))
  | _, [] => some []
  | 0, _ :: _ => none
  | fuel + 1, len :: rest =>
      if len = 0 then none
      else match rest with
        | [] => none
        | type :: body =>
            if body.length < len - 1 then none
            else (decodeRecords fuel (body.drop (len - 1))).map
                   (fun rs => (type, body.take (len - 1)) :: rs)

/-- The decoder on a payload; a record takes at least two bytes, so the number
of bytes is enough fuel. -/
def decode (bytes : List Nat) : Option (List (Nat × List Nat)) :=
  decodeRecords bytes.length bytes

/-- Reading of 16-bit identifiers, least significant byte first; `none` on an
odd number of bytes. -/
def readLe16s : List Nat → Option (List Nat)
  | [] => some []
  | [_] => none
  | lo :: hi :: rest => (readLe16s rest).map (fun us => (lo + 256 * hi) :: us)

/-- The identifiers of the records carrying the given tag, in payload order. -/
def uuidsOfRecords (tag : Nat) : List (Nat × List Nat) → Option (List Nat)
  | [] => some []
  | (t, body) :: rs =>
      if t = tag then
        (readLe16s body).bind (fun us => (uuidsOfRecords tag rs).map (fun vs => us ++ vs))
      else uuidsOfRecords tag rs

/-- The 16-bit identifier list a decoder reads from a payload. -/
def uuid16List (h : BtHeader) (bytes : List Nat) : Option (List Nat) :=
  (decode bytes).bind (uuidsOfRecords h.BT_DATA_UUID16_ALL)

/-- Modelled from the spec: the 16-bit identifier of the service a registration
call registers, `0x1812` for the input-report service of `hog_init` and
`0x180F` for the battery service of `bas_init` (the service sources under
`include/gatt` are not part of the sources). -/
def serviceUuid : Call → Option Nat
  | .hog_init => some 0x1812
  | .bas_init => some 0x180F
  | _ => none

/-! ## Reported security levels -/

/-- The level a `security_changed` console line reports. -/
def reportedLevel : Call → Option Nat
  | .printk fmt [.str _, .uint n] =>
      if fmt = "Security changed: %s level %u\n" then some n else none
  | _ => none

/-- The levels a trace reports, in order. -/
def reportedLevels (t : List Call) : List Nat := t.filterMap reportedLevel

/-- The level an event delivers, when it is a security change. -/
def deliveredLevel : Env × Event → Option Nat
  | (_, .security_changed _ level) => some level.ord
  | _ => none

/-! ## Concrete inputs -/

/-- A connection to a peer `X`. -/
def connX : bt_conn := ⟨0, "X"⟩

/-- Surroundings in which settings are enabled and every call succeeds. -/
def envOk : Env := ⟨true, false, false, 0, 0, 0, 0⟩

/-- Surroundings in which the registration inside `hog_init` fails. -/
def envHogFails : Env := ⟨true, true, false, 0, 0, 0, 0⟩

/-- Surroundings in which `bt_enable` and the security request are refused. -/
def envRefused : Env := ⟨true, false, false, 0, 0, -5, -5⟩

/-! ## Decimal digits -/

/-- Reading back the little-endian bytes of 16-bit identifiers gives the
identifiers, in order. -/
theorem readLe16s_le16 (ids : List Nat) (hids : ∀ u ∈ ids, u < 65536) :
    readLe16s (ids.flatMap le16) = some ids := by
  induction ids with
  | nil => rfl
  | cons u us ih =>
      have hu : u < 65536 := hids u (List.mem_cons_self _ _)
      have hrest := ih (fun v hv => hids v (List.mem_cons_of_mem _ hv))
      have hval : u % 256 + 256 * (u / 256 % 256) = u := by omega
      have hcons : (u :: us).flatMap le16
          = (u % 256) :: (u / 256 % 256) :: us.flatMap le16 := rfl
      rw [hcons, readLe16s, hrest]
      simp [hval]

/-- Decoding the payload of a table whose elements state their own length, of
at most 254 data bytes each, gives the type and data of each element, in table
order, with any fuel from the number of elements on. -/
theorem decodeRecords_adPayload (table : List bt_data)
    (hwf : ∀ d ∈ table, d.data_len = d.data.length ∧ d.data_len < 255) :
    ∀ fuel, table.length ≤ fuel →
      decodeRecords fuel (adPayload table) = some (table.map (fun d => (d.type, d.data))) := by
  induction table with
  | nil => intro fuel _; cases fuel <;> rfl
  | cons d ds ih =>
      intro fuel hfuel
      obtain ⟨hlen, hsmall⟩ := hwf d (List.mem_cons_self _ _)
      have hrest := ih (fun e he => hwf e (List.mem_cons_of_mem _ he))
      cases fuel with
      | zero => simp at hfuel
      | succ fuel =>
          have hf : ds.length ≤ fuel := by simpa using hfuel
          have hmod : (d.data_len + 1) % 256 = d.data_len + 1 := Nat.mod_eq_of_lt (by omega)
          have hpay : adPayload (d :: ds)
              = (d.data_len + 1) :: d.type :: (d.data ++ adPayload ds) := by
            have h255 : d.data.length + 1 < 256 := by omega
            simp [adPayload, adRecord, hlen, Nat.mod_eq_of_lt h255]
          rw [hpay]
          simp only [decodeRecords]
          simp [hlen, hrest fuel hf]

/-- The decoder inverts the payload construction on every such table, and its
fuel is enough. -/
theorem decode_adPayload (table : List bt_data)
    (hwf : ∀ d ∈ table, d.data_len = d.data.length ∧ d.data_len < 255) :
    decode (adPayload table) = some (table.map (fun d => (d.type, d.data))) := by
  apply decodeRecords_adPayload table hwf
  have hlen : ∀ t : List bt_data, t.length ≤ (adPayload t).length := by
    intro t
    induction t with
    | nil => simp
    | cons d ds ih =>
        have : adPayload (d :: ds) = adRecord d ++ adPayload ds := by simp [adPayload]
        rw [this]
        simp [adRecord]
        omega
  exact hlen table
/-! ## The advertising payload -/

/-- The payload of the `ad` table for any values of the header constants: a
flags record of length 2 and a 16-bit identifier list record of length 5. -/
theorem adPayload_ad (h : BtHeader) :
    adPayload (ad h)
      = [2, h.BT_DATA_FLAGS % 256, (h.BT_LE_AD_GENERAL ||| h.BT_LE_AD_NO_BREDR) % 256,
         5, h.BT_DATA_UUID16_ALL % 256, 0x12, 0x18, 0x0F, 0x18] := by
  simp [adPayload, ad, BT_DATA_BYTES, adRecord]

/-- C1: the advertising payload of the `ad` table, as length/type/data records
in table order, is the 9 bytes 02 01 06 05 03 12 18 0F 18: a flags record of
length 2 with value general-discoverable | no-BR/EDR (0x02 | 0x04), then a
16-bit identifier list record of length 1 + 2*2 holding 0x1812 and 0x180F,
each least significant byte first. The lengths and the identifier bytes do not
depend on the values of the header constants. -/
theorem C1_ad_payload_bytes :
    adPayload (ad assignedNumbers) = [0x02, 0x01, 0x06, 0x05, 0x03, 0x12, 0x18, 0x0F, 0x18]
    ∧ (adPayload (ad assignedNumbers)).length = 9
    ∧ ad assignedNumbers
        = [⟨0x01, 1, [0x02 ||| 0x04]⟩, ⟨0x03, 2 * 2, le16 0x1812 ++ le16 0x180F⟩]
    ∧ adRecord ⟨0x01, 1, [0x02 ||| 0x04]⟩ = [2, 0x01, 0x06]
    ∧ adRecord ⟨0x03, 2 * 2, le16 0x1812 ++ le16 0x180F⟩
        = (1 + 2 * 2) :: 0x03 :: (le16 0x1812 ++ le16 0x180F)
    ∧ ARRAY_SIZE (ad assignedNumbers) = 2
    ∧ (∀ h : BtHeader, adPayload (ad h)
        = [2, h.BT_DATA_FLAGS % 256, (h.BT_LE_AD_GENERAL ||| h.BT_LE_AD_NO_BREDR) % 256,
           1 + 2 * 2, h.BT_DATA_UUID16_ALL % 256, 0x12, 0x18, 0x0F, 0x18]) := by
  refine ⟨by decide, by decide, by decide, by decide, by decide, by decide, ?_⟩
  intro h
  exact adPayload_ad h

/-- C2: a length/type/data decoder run on the payload of the `ad` table
consumes it whole (the records it yields, the flags record and the identifier
record, written back are the payload), and reads the identifier list 0x1812, 0x180F from it: the identifiers of the
services `bt_ready` registers, in the order it registers them (`hog_init`
first, `bas_init` second). -/
theorem C2_payload_round_trip (env : Env) :
    decode (adPayload (ad assignedNumbers))
      = some [(0x01, [0x06]), (0x03, [0x12, 0x18, 0x0F, 0x18])]
    ∧ [(0x01, [0x06]), (0x03, [0x12, 0x18, 0x0F, 0x18])].flatMap
          (fun r : Nat × List Nat => (r.2.length + 1) :: r.1 :: r.2)
        = adPayload (ad assignedNumbers)
    ∧ uuid16List assignedNumbers (adPayload (ad assignedNumbers)) = some [0x1812, 0x180F]
    ∧ (bt_ready assignedNumbers env 0).filterMap serviceUuid = [0x1812, 0x180F]
    ∧ uuid16List assignedNumbers (adPayload (ad assignedNumbers))
        = some ((bt_ready assignedNumbers env 0).filterMap serviceUuid) := by
  have hreg : (bt_ready assignedNumbers env 0).filterMap serviceUuid = [0x1812, 0x180F] := by
    cases hs : env.CONFIG_SETTINGS <;> by_cases ha : env.bt_le_adv_start = 0 <;>
      simp [bt_ready, hs, ha, serviceUuid, List.filterMap]
  refine ⟨by decide, by decide, by decide, hreg, ?_⟩
  rw [hreg]
  decide

/-! ## Bring-up -/

/-- C3: when transport initialization succeeded (`err = 0`), whatever the
advertising-start request returns, the requests of `bt_ready` are, in order:
`hog_init`, `bas_init`, `settings_load` when settings are enabled, then
advertising start with the `ad` table; advertising start is issued exactly
once, is the last request, and the whole trace ends with one console line
that reports its result. -/
theorem C3_bring_up_order (h : BtHeader) (env : Env) :
    commands (bt_ready h env 0)
      = [Call.hog_init, Call.bas_init]
        ++ (if env.CONFIG_SETTINGS then [Call.settings_load] else [])
        ++ [Call.bt_le_adv_start .BT_LE_ADV_CONN_NAME (ad h) (ARRAY_SIZE (ad h)) none 0]
    ∧ ((bt_ready h env 0).filter Call.isAdvStart).length = 1
    ∧ bt_ready h env 0
      = [Call.printk "Bluetooth initialized\n" [], Call.hog_init, Call.bas_init]
        ++ (if env.CONFIG_SETTINGS then [Call.settings_load] else [])
        ++ [Call.bt_le_adv_start .BT_LE_ADV_CONN_NAME (ad h) (ARRAY_SIZE (ad h)) none 0,
            if env.bt_le_adv_start ≠ 0 then
              Call.printk "Advertising failed to start (err %d)\n" [.int env.bt_le_adv_start]
            else Call.printk "Advertising successfully started\n" []] := by
  cases hs : env.CONFIG_SETTINGS <;> by_cases ha : env.bt_le_adv_start = 0 <;>
    simp [bt_ready, commands, Call.isLog, Call.isAdvStart, hs, ha]

/-- C4: a transport initialization failure stops bring-up. For a nonzero
`err`, `bt_ready` only writes the failure line: no service registration, no
settings load, no advertising start. For a nonzero result of `bt_enable`,
`main` only writes the failure line after the call: neither callback table is
registered. -/
theorem C4_transport_failure_fatal (h : BtHeader) (env : Env) (err : Int) (herr : err ≠ 0)
    (env2 : Env) (hen : env2.bt_enable ≠ 0) :
    bt_ready h env err = [Call.printk "Bluetooth init failed (err %d)\n" [.int err]]
    ∧ commands (bt_ready h env err) = []
    ∧ (bt_ready h env err).filter Call.isServiceInit = []
    ∧ Call.settings_load ∉ bt_ready h env err
    ∧ (bt_ready h env err).filter Call.isAdvStart = []
    ∧ main env2 = [Call.bt_enable .bt_ready,
                   Call.printk "Bluetooth init failed (err %d)\n" [.int env2.bt_enable]]
    ∧ (main env2).filter Call.isCallbackRegister = [] := by
  simp [bt_ready, main, commands, Call.isLog, Call.isServiceInit, Call.isAdvStart,
    Call.isCallbackRegister, herr, hen]

/-- Witness of C4 at `err = -5` and at a `bt_enable` that returns `-5`. -/
theorem C4_transport_failure_fatal_witness :
    ((-5 : Int) ≠ 0 ∧ envRefused.bt_enable ≠ 0)
    ∧ commands (bt_ready assignedNumbers envOk (-5)) = []
    ∧ (main envRefused).filter Call.isCallbackRegister = [] :=
  have hw := C4_transport_failure_fatal assignedNumbers envOk (-5) (by decide) envRefused (by decide)
  ⟨⟨by decide, by decide⟩, hw.2.1, hw.2.2.2.2.2.2⟩

/-! ## Connection events -/

/-- C5: on a connect event with a nonzero error code the `connected` handler
only writes the failure line: no security request, no advertising command, no
request at all, so the requests made up to and including the event are those
made before it. -/
theorem C5_connect_error_no_effect (env : Env) (conn : bt_conn) (err : Nat) (herr : err ≠ 0)
    (before : List (Env × Event)) :
    connected env conn err
      = [Call.printk "Failed to connect to %s (%u)\n" [.str conn.dst, .uint err]]
    ∧ (connected env conn err).filter Call.isSecurityRequest = []
    ∧ (connected env conn err).filter Call.isAdvStart = []
    ∧ commands (connected env conn err) = []
    ∧ commands (run (before ++ [(env, Event.connect conn err)])) = commands (run before) := by
  simp [connected, bt_addr_le_to_str, commands, run, handle, Call.isLog, Call.isSecurityRequest,
    Call.isAdvStart, herr]

/-- Witness of C5 at error code 7, after a first successful connection. -/
theorem C5_connect_error_no_effect_witness :
    (7 ≠ 0)
    ∧ commands (run ([(envOk, Event.connect connX 0)] ++ [(envOk, Event.connect connX 7)]))
        = commands (run [(envOk, Event.connect connX 0)])
    ∧ connected envOk connX 7
        = [Call.printk "Failed to connect to %s (%u)\n" [.str "X", .uint 7]] :=
  have hw := C5_connect_error_no_effect envOk connX 7 (by decide) [(envOk, Event.connect connX 0)]
  ⟨by decide, hw.2.2.2.2, hw.1⟩

/-- C6: on a connect event with error code 0 the `connected` handler issues
exactly one security request, for the connection of the event and at level
Medium, and no other request; it returns with the same requests whether the
request is accepted or refused, and only the console output differs (one more
line on refusal). -/
theorem C6_connect_requests_medium (env : Env) (conn : bt_conn) :
    (connected env conn 0).filter Call.isSecurityRequest
      = [Call.bt_conn_security conn .BT_SECURITY_MEDIUM]
    ∧ commands (connected env conn 0) = [Call.bt_conn_security conn .BT_SECURITY_MEDIUM]
    ∧ (∀ env2 : Env, commands (connected env2 conn 0) = commands (connected env conn 0))
    ∧ logs (connected env conn 0)
        = Call.printk "Connected %s\n" [.str conn.dst]
          :: (if env.bt_conn_security ≠ 0 then [Call.printk "Failed to set security\n" []]
              else []) := by
  have key : ∀ e : Env, commands (connected e conn 0)
      = [Call.bt_conn_security conn .BT_SECURITY_MEDIUM] := by
    intro e
    by_cases hsec : e.bt_conn_security = 0 <;>
      simp [connected, commands, Call.isLog, hsec]
  refine ⟨?_, key env, fun e => by rw [key e, key env], ?_⟩ <;>
    by_cases hsec : env.bt_conn_security = 0 <;>
      simp [connected, bt_addr_le_to_str, logs, Call.isLog, Call.isSecurityRequest, hsec]

/-! ## Service registration -/

/-- C7, as stated, fails: with the registration inside `hog_init` failing,
`bt_ready` goes on through `bas_init` and the settings load and issues the
advertising-start request, and reports that advertising started. -/
theorem C7_counterexample :
    envHogFails.hog_init_failed = true
    ∧ bt_ready assignedNumbers envHogFails 0
        = [Call.printk "Bluetooth initialized\n" [], Call.hog_init, Call.bas_init,
           Call.settings_load,
           Call.bt_le_adv_start .BT_LE_ADV_CONN_NAME (ad assignedNumbers) 2 none 0,
           Call.printk "Advertising successfully started\n" []]
    ∧ (bt_ready assignedNumbers envHogFails 0).filter Call.isAdvStart ≠ [] := by
  decide

/-- C7, amended: `bt_ready` takes no result from `hog_init` or `bas_init`, so
a registration failure is not observed. Whatever the outcome of the two
registrations, a bring-up whose transport initialization succeeded makes the
same calls as when both succeed, in the same order: the console line of the
successful initialization, `hog_init`, `bas_init`, the settings load exactly
when settings are enabled, then the advertising-start request, issued exactly
once and last among the requests, then the console line of its result. No
console line reports a registration failure. -/
theorem C7_registration_outcome_unobserved (h : BtHeader) (env : Env) (hogFailed basFailed : Bool) :
    bt_ready h ⟨env.CONFIG_SETTINGS, hogFailed, basFailed, env.settings_load,
        env.bt_le_adv_start, env.bt_conn_security, env.bt_enable⟩ 0
      = bt_ready h env 0
    ∧ (bt_ready h env 0).filter Call.isServiceInit = [Call.hog_init, Call.bas_init]
    ∧ ((bt_ready h env 0).filter Call.isAdvStart).length = 1
    ∧ bt_ready h ⟨env.CONFIG_SETTINGS, hogFailed, basFailed, env.settings_load,
        env.bt_le_adv_start, env.bt_conn_security, env.bt_enable⟩ 0
      = [Call.printk "Bluetooth initialized\n" [], Call.hog_init, Call.bas_init]
        ++ (if env.CONFIG_SETTINGS then [Call.settings_load] else [])
        ++ [Call.bt_le_adv_start .BT_LE_ADV_CONN_NAME (ad h) (ARRAY_SIZE (ad h)) none 0,
            if env.bt_le_adv_start ≠ 0 then
              Call.printk "Advertising failed to start (err %d)\n" [.int env.bt_le_adv_start]
            else Call.printk "Advertising successfully started\n" []]
    ∧ commands (bt_ready h ⟨env.CONFIG_SETTINGS, hogFailed, basFailed, env.settings_load,
        env.bt_le_adv_start, env.bt_conn_security, env.bt_enable⟩ 0)
      = [Call.hog_init, Call.bas_init]
        ++ (if env.CONFIG_SETTINGS then [Call.settings_load] else [])
        ++ [Call.bt_le_adv_start .BT_LE_ADV_CONN_NAME (ad h) (ARRAY_SIZE (ad h)) none 0]
    ∧ ((bt_ready h ⟨env.CONFIG_SETTINGS, hogFailed, basFailed, env.settings_load,
        env.bt_le_adv_start, env.bt_conn_security, env.bt_enable⟩ 0).filter
          (fun c => decide (c = Call.settings_load))).length
      = (if env.CONFIG_SETTINGS then 1 else 0)
    ∧ logs (bt_ready h ⟨env.CONFIG_SETTINGS, hogFailed, basFailed, env.settings_load,
        env.bt_le_adv_start, env.bt_conn_security, env.bt_enable⟩ 0)
      = [Call.printk "Bluetooth initialized\n" [],
         if env.bt_le_adv_start ≠ 0 then
           Call.printk "Advertising failed to start (err %d)\n" [.int env.bt_le_adv_start]
         else Call.printk "Advertising successfully started\n" []] := by
  cases hs : env.CONFIG_SETTINGS <;> by_cases ha : env.bt_le_adv_start = 0 <;>
    simp [bt_ready, commands, logs, Call.isLog, Call.isServiceInit, Call.isAdvStart, hs, ha]

/-! ## Disconnection -/

/-- C8, as stated, fails: on `disconnect(X, 0x16)` the `disconnected` handler
issues no advertising-start request, and over the pair `connect(X, 0)`,
`disconnect(X, 0x16)` the only request of the program is the security request
of the connect. -/
theorem C8_counterexample :
    ¬ (∃ c ∈ disconnected connX 0x16, c.isAdvStart = true)
    ∧ (run [(envOk, Event.connect connX 0), (envOk, Event.disconnect connX 0x16)]).filter
        Call.isAdvStart = []
    ∧ commands (run [(envOk, Event.connect connX 0), (envOk, Event.disconnect connX 0x16)])
        = [Call.bt_conn_security connX .BT_SECURITY_MEDIUM] := by
  decide

/-- C8, amended: for every disconnect event and every reason code the
`disconnected` handler only writes one console line carrying the peer address
and the reason; it issues no request (no advertising start), so the requests
made up to and including the event are those made before it. -/
theorem C8_disconnect_logs_only (env : Env) (conn : bt_conn) (reason : Nat)
    (before : List (Env × Event)) :
    disconnected conn reason
      = [Call.printk "Disconnected from %s (reason %u)\n" [.str conn.dst, .uint reason]]
    ∧ (disconnected conn reason).flatMap Call.text
        = "Disconnected from ".toList ++ conn.dst.toList ++ " (reason ".toList
          ++ Nat.toDigits 10 reason ++ ")\n".toList
    ∧ (disconnected conn reason).filter Call.isAdvStart = []
    ∧ commands (disconnected conn reason) = []
    ∧ commands (run (before ++ [(env, Event.disconnect conn reason)]))
        = commands (run before) := by
  refine ⟨rfl, ?_, ?_, ?_, ?_⟩
  · simp [disconnected, bt_addr_le_to_str, Call.text, render, conv, fmt_u, padLeft]
  · simp [disconnected, Call.isAdvStart]
  · simp [disconnected, commands, Call.isLog]
  · simp [disconnected, commands, run, handle, Call.isLog]

/-! ## Security level -/

/-- C9, as stated, fails, the level the program holds being read as the level
it last reported (it stores none): after `connect(X, 0)`, a security change to
High and then to Low are reported as 3 and then 1, a decrease. -/
theorem C9_counterexample :
    reportedLevels (run [(envOk, Event.connect connX 0),
                         (envOk, Event.security_changed connX .BT_SECURITY_HIGH),
                         (envOk, Event.security_changed connX .BT_SECURITY_LOW)]) = [3, 1]
    ∧ ¬ List.Pairwise (fun a b => a ≤ b)
          (reportedLevels (run [(envOk, Event.connect connX 0),
                                (envOk, Event.security_changed connX .BT_SECURITY_HIGH),
                                (envOk, Event.security_changed connX .BT_SECURITY_LOW)])) := by
  decide

theorem reportedLevels_handle (env : Env) (ev : Event) :
    reportedLevels (handle env ev) = (deliveredLevel (env, ev)).toList := by
  cases ev with
  | connect conn err =>
      by_cases herr : err = 0 <;> by_cases hsec : env.bt_conn_security = 0 <;>
        simp [handle, connected, reportedLevels, reportedLevel, deliveredLevel, herr, hsec]
  | disconnect conn reason =>
      simp [handle, disconnected, reportedLevels, reportedLevel, deliveredLevel]
  | security_changed conn level =>
      simp [handle, security_changed, reportedLevels, reportedLevel, deliveredLevel]
  | passkey_display conn passkey =>
      simp [handle, auth_passkey_display, reportedLevels, reportedLevel, deliveredLevel]
  | cancel conn =>
      simp [handle, auth_cancel, reportedLevels, reportedLevel, deliveredLevel]
  | pairing_complete conn bonded =>
      simp [handle, pairing_complete, reportedLevels, reportedLevel, deliveredLevel]

/-- C9, amended: the program stores no security level. The `security_changed`
handler issues no request and reports the delivered level as it is, so over
every sequence of events the levels the program reports are exactly the levels
the stack delivered, in order; they are non-decreasing exactly when the
delivered ones are. -/
theorem C9_levels_reported_as_delivered (evs : List (Env × Event)) (conn : bt_conn)
    (level : bt_security_t) :
    reportedLevels (run evs) = evs.filterMap deliveredLevel
    ∧ (List.Pairwise (fun a b => a ≤ b) (reportedLevels (run evs))
        ↔ List.Pairwise (fun a b => a ≤ b) (evs.filterMap deliveredLevel))
    ∧ security_changed conn level
        = [Call.printk "Security changed: %s level %u\n" [.str conn.dst, .uint level.ord]]
    ∧ commands (security_changed conn level) = [] := by
  have hrep : reportedLevels (run evs) = evs.filterMap deliveredLevel := by
    induction evs with
    | nil => rfl
    | cons e es ih =>
        have hrun : run (e :: es) = handle e.1 e.2 ++ run es := by simp [run]
        have happ : reportedLevels (handle e.1 e.2 ++ run es)
            = reportedLevels (handle e.1 e.2) ++ reportedLevels (run es) := by
          simp [reportedLevels]
        rw [hrun, happ, ih, reportedLevels_handle]
        cases hd : deliveredLevel e <;> simp [List.filterMap_cons, hd]
  refine ⟨hrep, by rw [hrep], rfl, ?_⟩
  simp [security_changed, commands, Call.isLog]

/-! ## Passkey display -/

end Lost60
